import Mathlib

/-!
Verification development for the tryfitted repository.

Shallow embedding of:
- the fit engine (packages/shared/src/fit/engine.ts) over the tryon contracts,
- the avatar job routes (apps/api/src/routes/avatars.ts),
- the presigned-upload route (apps/api/src/routes/uploads.ts), and
- the GPU worker entrypoint shell script (MODEL_SYNC_ENABLED and
  REQUIRE_GLTFPACK handling).

Measurements from the JSON payloads are modelled as rationals, timestamps as
natural-number clock values, and database state as explicit record lists.
-/

namespace Tryfitted

/-! ## Fit contracts (packages/shared/src/contracts/tryon.ts) -/

/-- StretchProfileSchema: enum none / low / medium / high. -/
inductive StretchProfile where
  | noStretch
  | low
  | medium
  | high
deriving DecidableEq, Repr

/-- MaterialProfileSchema: an optional stretch field. -/
structure MaterialProfile where
  stretch : Option StretchProfile
deriving DecidableEq, Repr

/-- TopMeasurementsSchema: six optional positive numbers.  The positivity
refinement is not needed by the fit engine, so fields are plain options. -/
structure TopMeasurements where
  chestCm : Option Rat
  waistCm : Option Rat
  hipCm : Option Rat
  shoulderCm : Option Rat
  sleeveCm : Option Rat
  lengthCm : Option Rat
deriving DecidableEq, Repr

/-- FitRequestSchema fields used by computeFit. -/
structure FitRequest where
  sizeChart : TopMeasurements
  avatarMeasurements : TopMeasurements
  materialProfile : Option MaterialProfile
deriving DecidableEq, Repr

/-- FitZoneNameSchema: the six zones. -/
inductive FitZoneName where
  | chest
  | waist
  | hip
  | shoulder
  | sleeve
  | length
deriving DecidableEq, Repr

/-- FitZoneStatusSchema. -/
inductive FitZoneStatus where
  | tight
  | regular
  | loose
  | unknown
deriving DecidableEq, Repr

/-- FitConfidenceSchema. -/
inductive FitConfidence where
  | low
  | medium
  | high
deriving DecidableEq, Repr

/-- FitZoneResultSchema. -/
structure FitZoneResult where
  status : FitZoneStatus
  bodyCm : Option Rat
  garmentCm : Option Rat
  easeCm : Option Rat
  adjustedEaseCm : Option Rat
deriving DecidableEq, Repr

/-! ## Fit engine (packages/shared/src/fit/engine.ts) -/

/-- The ZONES table: per zone, body field and garment field carry the same
field name, so one accessor serves both sides. -/
def zoneField : FitZoneName → TopMeasurements → Option Rat
  | .chest, m => m.chestCm
  | .waist, m => m.waistCm
  | .hip, m => m.hipCm
  | .shoulder, m => m.shoulderCm
  | .sleeve, m => m.sleeveCm
  | .length, m => m.lengthCm

/-- Order of the ZONES array in the source. -/
def zoneNames : List FitZoneName :=
  [.chest, .waist, .hip, .shoulder, .sleeve, .length]

/-- stretchAllowanceCm: high 3, medium 2, low 1, default 0 (covers both the
explicit none profile and an absent stretch field). -/
def stretchAllowanceCm : Option StretchProfile → Rat
  | some .high => 3
  | some .medium => 2
  | some .low => 1
  | _ => 0

/-- statusFromAdjustedEase. -/
def statusFromAdjustedEase (adjustedEaseCm : Rat) : FitZoneStatus :=
  if adjustedEaseCm < 0 then .tight
  else if adjustedEaseCm ≤ 4 then .regular
  else .loose

/-- combineOverall; the includes test is membership. -/
def combineOverall (statuses : List FitZoneStatus) : FitZoneStatus :=
  if FitZoneStatus.tight ∈ statuses then .tight
  else if statuses.length = 0 then .unknown
  else
    let looseCount := (statuses.filter (fun s => s = .loose)).length
    let regularCount := (statuses.filter (fun s => s = .regular)).length
    if regularCount < looseCount then .loose else .regular

/-- The per-zone body of the ZONES.map callback inside computeFit. -/
def computeZone (allowance : Rat) (request : FitRequest) (name : FitZoneName) :
    FitZoneResult :=
  let bodyCm := zoneField name request.avatarMeasurements
  let garmentCm := zoneField name request.sizeChart
  match bodyCm, garmentCm with
  | some b, some g =>
      let easeCm := g - b
      let adjustedEaseCm := easeCm + allowance
      { status := statusFromAdjustedEase adjustedEaseCm
        bodyCm := some b
        garmentCm := some g
        easeCm := some easeCm
        adjustedEaseCm := some adjustedEaseCm }
  | _, _ =>
      { status := .unknown
        bodyCm := bodyCm
        garmentCm := garmentCm
        easeCm := none
        adjustedEaseCm := none }

/-- confidenceFromCoverage: counts zones whose result has both measurements. -/
def confidenceFromCoverage (zones : FitZoneName → FitZoneResult) :
    FitConfidence × List String :=
  let present :=
    (zoneNames.filter
      (fun z => (zones z).bodyCm.isSome && (zones z).garmentCm.isSome)).length
  if 4 ≤ present then (.high, [])
  else if 2 ≤ present then (.medium, ["Partial size chart coverage"])
  else (.low, ["Insufficient measurement coverage"])

/-- The present count of confidenceFromCoverage, expressed directly on the
request: the number of zones whose body and garment measurements are both
present. -/
def coverageCount (request : FitRequest) : Nat :=
  (zoneNames.filter
    (fun z =>
      (zoneField z request.avatarMeasurements).isSome
        && (zoneField z request.sizeChart).isSome)).length

/-- FitResponse with the zone map represented as a total function on the six
zone names and the heatmap likewise. -/
structure FitResponse where
  overall : FitZoneStatus
  confidence : FitConfidence
  reasons : List String
  zones : FitZoneName → FitZoneResult
  proxyScale : Rat
  heatmap : FitZoneName → Rat

/-- computeFit. -/
def computeFit (request : FitRequest) : FitResponse :=
  let allowance :=
    stretchAllowanceCm (request.materialProfile.bind (fun p => p.stretch))
  let zones := fun z => computeZone allowance request z
  let measuredStatuses :=
    (zoneNames.map (fun z => (zones z).status)).filter (fun s => s ≠ .unknown)
  let overall := combineOverall measuredStatuses
  let cr := confidenceFromCoverage zones
  { overall := overall
    confidence := cr.1
    reasons := cr.2
    zones := zones
    proxyScale :=
      if overall = .tight then (98 : Rat) / 100
      else if overall = .loose then (102 : Rat) / 100
      else 1
    heatmap := fun z =>
      match (zones z).status with
      | .tight => 1
      | .regular => (1 : Rat) / 2
      | .loose => 0
      | .unknown => (1 : Rat) / 4 }

/-! ## Avatar job store and routes (apps/api/src/routes/avatars.ts) -/

/-- A row of the AvatarJob table, with the fields the routes touch.
Timestamps are clock values (Nat); a missing timestamp is none. -/
structure AvatarJobRow where
  id : String
  userId : String
  status : String
  heightCm : Rat
  error : Option String
  startedAt : Option Nat
  completedAt : Option Nat
deriving DecidableEq, Repr

/-- A row of the Avatar table, with the fields the status callback writes.
The measurements and quality report payloads are carried opaquely. -/
structure AvatarRow where
  userId : String
  jobId : String
  glbS3Key : String
  glbUrl : String
deriving DecidableEq, Repr

/-- The database state the avatar routes read and write. -/
structure Db where
  jobs : List AvatarJobRow
  avatars : List AvatarRow
deriving DecidableEq, Repr

/-- A message appended to the avatar queue by the job-creation route. -/
structure QueueMessage where
  name : String
  jobId : String
  frontPhotoUrl : String
  sidePhotoUrl : Option String
  heightCm : Rat
deriving DecidableEq, Repr

/-- db.avatarJob.findUnique / the where clause of update, by id. -/
def findJob (db : Db) (id : String) : Option AvatarJobRow :=
  db.jobs.find? (fun j => j.id = id)

/-! ### POST /v1/avatar/jobs -/

/-- The raw JSON body of a job-creation request before validation: each field
may be absent (or of the wrong JSON type, which validation treats the same). -/
structure RawCreateJobBody where
  frontPhotoUrl : Option String
  sidePhotoUrl : Option String
  heightCm : Option Rat
deriving DecidableEq, Repr

/-- A job-creation request after CreateAvatarJobRequestSchema validation. -/
structure CreateAvatarJobRequest where
  frontPhotoUrl : String
  sidePhotoUrl : Option String
  heightCm : Rat
deriving DecidableEq, Repr

/-- CreateAvatarJobRequestSchema.safeParse: frontPhotoUrl a required valid
URL, sidePhotoUrl an optional valid URL, heightCm a required number with
min 100 and max 250.  URL validity is the check of the runtime URL class,
passed in as the predicate isUrl. -/
def parseCreateAvatarJob (isUrl : String → Bool) (b : RawCreateJobBody) :
    Option CreateAvatarJobRequest :=
  match b.frontPhotoUrl, b.heightCm with
  | some f, some h =>
      if isUrl f
          && (match b.sidePhotoUrl with
              | some s => isUrl s
              | none => true)
          && decide (100 ≤ h) && decide (h ≤ 250) then
        some { frontPhotoUrl := f, sidePhotoUrl := b.sidePhotoUrl, heightCm := h }
      else none
  | _, _ => none

/-- Outcome of the job-creation route as seen by the caller. -/
inductive CreateJobOutcome where
  | badRequest
  | created (jobId : String) (status : String)
deriving DecidableEq, Repr

/-- The API state touched by POST /v1/avatar/jobs: the job table plus the
avatar queue. -/
structure ApiState where
  db : Db
  queue : List QueueMessage
deriving DecidableEq, Repr

/-- POST /v1/avatar/jobs: validate with parseBody (reply 400 and stop when
the schema rejects), create one job row with status queued, enqueue one
avatar_build message, and reply with the job id and status.  freshId is the
id the store assigns to the new row. -/
def postAvatarJobs (isUrl : String → Bool) (freshId : String)
    (b : RawCreateJobBody) (st : ApiState) : CreateJobOutcome × ApiState :=
  match parseCreateAvatarJob isUrl b with
  | none => (.badRequest, st)
  | some request =>
      let job : AvatarJobRow :=
        { id := freshId
          userId := "default-user"
          status := "queued"
          heightCm := request.heightCm
          error := none
          startedAt := none
          completedAt := none }
      let msg : QueueMessage :=
        { name := "avatar_build"
          jobId := job.id
          frontPhotoUrl := request.frontPhotoUrl
          sidePhotoUrl := request.sidePhotoUrl
          heightCm := request.heightCm }
      (.created job.id job.status,
        { st with
            db := { st.db with jobs := st.db.jobs ++ [job] }
            queue := st.queue ++ [msg] })

/-! ### PATCH /v1/avatar/jobs/:id/status -/

/-- The result payload of a completed callback.  The measurements and
quality-report JSON values are pass-through and carried opaquely. -/
structure CallbackResult where
  userId : String
  glbUrl : String
deriving DecidableEq, Repr

/-- The body of a status callback (cast, not validated): every field
optional. -/
structure StatusCallbackBody where
  status : Option String
  error : Option String
  progress : Option Rat
  result : Option CallbackResult
deriving DecidableEq, Repr

/-- db.avatar.create: appends a row, or throws (models a store failure such
as the unique jobId constraint); createFails says whether this call throws. -/
def avatarCreate (createFails : Bool) (row : AvatarRow) (db : Db) :
    Except Unit Db :=
  if createFails then .error ()
  else .ok { db with avatars := db.avatars ++ [row] }

/-- The data record of db.avatarJob.update in the status callback, applied
to the stored row: status and error are overwritten when the body carries
them (an absent field leaves the column unchanged), startedAt is set to the
current time exactly when the body status is processing, and completedAt is
set to the current time exactly when the body status is completed or
failed. -/
def updatedJobRow (now : Nat) (b : StatusCallbackBody) (j : AvatarJobRow) :
    AvatarJobRow :=
  { j with
      status := b.status.getD j.status
      error := (b.error.map some).getD j.error
      startedAt :=
        if b.status = some "processing" then some now else j.startedAt
      completedAt :=
        if b.status = some "completed" ∨ b.status = some "failed" then
          some now
        else j.completedAt }

/-- db.avatarJob.update for the status callback: throws when no row has the
given id; otherwise stores the updated row. -/
def avatarJobUpdate (now : Nat) (id : String) (b : StatusCallbackBody)
    (db : Db) : Except Unit (Db × AvatarJobRow) :=
  match db.jobs.find? (fun j => j.id = id) with
  | none => .error ()
  | some j =>
      let j' := updatedJobRow now b j
      .ok ({ db with jobs := db.jobs.map (fun r => if r.id = id then j' else r) },
        j')

/-- PATCH /v1/avatar/jobs/:id/status: when the body carries status completed
together with a result payload, first create the Avatar row (its glbS3Key
derived from the glb URL by inferKey, standing for inferS3KeyFromPublicUrl
over the runtime URL class and the bucket env); then update the job row.
A throw in either store call aborts the handler, leaving the store at the
state it had before the failing call. -/
def patchStatus (inferKey : String → String) (createFails : Bool) (now : Nat)
    (id : String) (b : StatusCallbackBody) (db : Db) :
    Except Unit (Db × AvatarJobRow) := do
  let db1 ←
    match b.result with
    | some r =>
        if b.status = some "completed" then
          avatarCreate createFails
            { userId := r.userId
              jobId := id
              glbS3Key := inferKey r.glbUrl
              glbUrl := r.glbUrl } db
        else pure db
    | none => pure db
  avatarJobUpdate now id b db1

/-- One status-callback invocation: its body, the clock value at which the
handler runs, and whether the avatar-store create call throws this time. -/
structure CallbackEvent where
  body : StatusCallbackBody
  now : Nat
  createFails : Bool
deriving DecidableEq, Repr

/-- Run a sequence of status callbacks for one job id; none when some
invocation throws. -/
def runCallbacks (inferKey : String → String) (id : String) :
    List CallbackEvent → Db → Option Db
  | [], db => some db
  | e :: es, db =>
      match patchStatus inferKey e.createFails e.now id e.body db with
      | .error _ => none
      | .ok (db', _) => runCallbacks inferKey id es db'

/-! ## Presigned uploads (apps/api/src/routes/uploads.ts and
packages/shared/src/contracts/uploads.ts) -/

/-- UploadPurposeSchema. -/
inductive UploadPurpose where
  | avatar_photo
  | screenshot
  | misc
deriving DecidableEq, Repr

/-- The raw JSON body of a presign request: purpose is none when absent or
not one of the enum values, the strings are none when absent or not
strings. -/
structure RawPresignBody where
  purpose : Option UploadPurpose
  contentType : Option String
  fileName : Option String
deriving DecidableEq, Repr

/-- A presign request after PresignUploadRequestSchema validation:
purpose from the enum, contentType a nonempty string, fileName an optional
nonempty string. -/
structure PresignUploadRequest where
  purpose : UploadPurpose
  contentType : String
  fileName : Option String
deriving DecidableEq, Repr

/-- PresignUploadRequestSchema.safeParse. -/
def parsePresign (b : RawPresignBody) : Option PresignUploadRequest :=
  match b.purpose, b.contentType with
  | some p, some ct =>
      if 1 ≤ ct.length
          && (match b.fileName with
              | some f => decide (1 ≤ f.length)
              | none => true) then
        some { purpose := p, contentType := ct, fileName := b.fileName }
      else none
  | _, _ => none

/-- JS template-literal interpolation of a possibly-undefined string: an
undefined value is rendered as the literal text undefined. -/
def jsInterpolate : Option String → String
  | some s => s
  | none => "undefined"

/-- The object key built by the presign route from the generated UUID and
the (optional) fileName field. -/
def presignKey (uuid : String) (fileName : Option String) : String :=
  "uploads/" ++ uuid ++ "-" ++ jsInterpolate fileName

/-- POST /v1/uploads/presign: validate with parseBody (none models the 400
reply), then answer with method PUT and the built object key.  uuid is the
value of crypto.randomUUID for this request; the presigned URL and public
URL fields are not modelled. -/
def postPresign (uuid : String) (b : RawPresignBody) :
    Option (String × String) :=
  (parsePresign b).map (fun request => ("PUT", presignKey uuid request.fileName))

/-! ## Worker entrypoint shell script (services avatar worker)

The script runs under set -eu: a failing unguarded command aborts the whole
script with that command's exit status. -/

/-- The lowercasing the is_true helper applies to its argument (the shell
pipes the value through tr), written on the character list so that it
evaluates by kernel reduction. -/
def shLower (s : String) : String :=
  String.mk (s.data.map Char.toLower)

/-- The is_true helper: lowercases the value and accepts 1, true, yes, on. -/
def is_true (value : String) : Bool :=
  let l := shLower value
  l = "1" || l = "true" || l = "yes" || l = "on"

/-- The environment variables the entrypoint consults; none models an unset
variable (the script defaults both to false via the - expansion). -/
structure WorkerEnv where
  MODEL_SYNC_ENABLED : Option String
  REQUIRE_GLTFPACK : Option String
deriving DecidableEq, Repr

/-- The outside world the entrypoint observes: the exit status of
python3 model_sync.py, the file-system tests of the gltfpack install step,
and whether command -v finds gltfpack some other way. -/
structure WorkerWorld where
  /-- Exit status of python3 /app/src/model_sync.py (0 is success). -/
  modelSyncExit : Nat
  /-- Test -x /usr/local/bin/gltfpack before the install step. -/
  usrLocalGltfpack : Bool
  /-- Test -f /app/models/tools/gltfpack. -/
  toolsGltfpackFile : Bool
  /-- Test -f /app/models/tools/gltfpack/gltfpack. -/
  toolsGltfpackNested : Bool
  /-- Whether the cp plus chmod of the install step succeed (both are
  guarded by or-true, so a failure here never aborts the script). -/
  installOk : Bool
  /-- Whether command -v finds gltfpack elsewhere on the PATH. -/
  gltfpackElsewhere : Bool
deriving DecidableEq, Repr

/-- Whether command -v gltfpack succeeds after the optional
install-from-volume step. -/
def gltfpackAvailable (w : WorkerWorld) : Bool :=
  w.usrLocalGltfpack
    || (!w.usrLocalGltfpack
          && (w.toolsGltfpackFile || w.toolsGltfpackNested)
          && w.installOk)
    || w.gltfpackElsewhere

/-- How a run of the entrypoint ends. -/
inductive EntrypointOutcome where
  /-- The script exited with the given status before reaching the worker. -/
  | exited (code : Nat)
  /-- The script reached exec python3 /app/src/worker.py. -/
  | startedWorker
deriving DecidableEq, Repr

/-- The tail of the entrypoint after the model-sync step: the gltfpack
install step (never fatal), the REQUIRE_GLTFPACK check (exit 1 when strict
and gltfpack is unavailable), the asset copy blocks (guarded by or-true,
never fatal), then exec of the worker. -/
def entrypointAfterSync (env : WorkerEnv) (w : WorkerWorld) :
    EntrypointOutcome :=
  if is_true (env.REQUIRE_GLTFPACK.getD "false") && !gltfpackAvailable w then
    .exited 1
  else .startedWorker

/-- The worker entrypoint script with the MODEL_SYNC_ENABLED guard: when the
guard is on, python3 model_sync.py runs unguarded, so under set -eu a
nonzero exit aborts the script with that status; when the guard is off, the
invocation carries or-true and a failure is ignored. -/
def entrypoint (env : WorkerEnv) (w : WorkerWorld) : EntrypointOutcome :=
  if is_true (env.MODEL_SYNC_ENABLED.getD "false") then
    if w.modelSyncExit ≠ 0 then .exited w.modelSyncExit
    else entrypointAfterSync env w
  else entrypointAfterSync env w

/-! ## Concrete inputs used by witnesses and counterexamples -/

/-- All six measurements absent. -/
def emptyMeasurements : TopMeasurements :=
  { chestCm := none, waistCm := none, hipCm := none
    shoulderCm := none, sleeveCm := none, lengthCm := none }

/-- The tight-chest request of the engine tests: garment chest 96 against
body chest 100, no material profile. -/
def fitReqTight : FitRequest :=
  { sizeChart := { emptyMeasurements with chestCm := some 96 }
    avatarMeasurements := { emptyMeasurements with chestCm := some 100 }
    materialProfile := none }

/-- The four-zone request of the engine tests: chest, shoulder, sleeve and
length present on both sides. -/
def fitReqHigh : FitRequest :=
  { sizeChart :=
      { emptyMeasurements with
          chestCm := some 110, shoulderCm := some 47
          sleeveCm := some 64, lengthCm := some 70 }
    avatarMeasurements :=
      { emptyMeasurements with
          chestCm := some 100, shoulderCm := some 44
          sleeveCm := some 60, lengthCm := some 66 }
    materialProfile := none }

/-- A queued job row before any callback. -/
def rowQueued : AvatarJobRow :=
  { id := "j1", userId := "default-user", status := "queued"
    heightCm := 180, error := none, startedAt := none, completedAt := none }

/-- Store holding the queued row and no avatars. -/
def dbQueued : Db := { jobs := [rowQueued], avatars := [] }

/-- A job row already in the terminal status completed. -/
def rowCompleted : AvatarJobRow :=
  { id := "j1", userId := "default-user", status := "completed"
    heightCm := 180, error := none, startedAt := some 1, completedAt := some 2 }

/-- Store holding the completed row and no avatars. -/
def dbCompleted : Db := { jobs := [rowCompleted], avatars := [] }

/-- A job row in processing whose startedAt was set at time 5. -/
def rowProcessing5 : AvatarJobRow :=
  { id := "j1", userId := "default-user", status := "processing"
    heightCm := 180, error := none, startedAt := some 5, completedAt := none }

/-- Store holding the processing row. -/
def dbProcessing5 : Db := { jobs := [rowProcessing5], avatars := [] }

/-- A status callback carrying processing and nothing else. -/
def cbProcessing : StatusCallbackBody :=
  { status := some "processing", error := none, progress := none, result := none }

/-- A status callback carrying completed with no result payload. -/
def cbCompletedNoResult : StatusCallbackBody :=
  { status := some "completed", error := none, progress := none, result := none }

/-- A concrete result payload. -/
def sampleResult : CallbackResult :=
  { userId := "default-user", glbUrl := "http://s3/tryfitted/avatars/j1/avatar.glb" }

/-- A status callback carrying completed together with a result payload. -/
def cbCompletedWithResult : StatusCallbackBody :=
  { status := some "completed", error := none, progress := none
    result := some sampleResult }

/-- The row produced by the processing callback at time 3 on the queued row. -/
def rowAfterProc3 : AvatarJobRow :=
  { id := "j1", userId := "default-user", status := "processing"
    heightCm := 180, error := none, startedAt := some 3, completedAt := none }

/-- The store produced by the processing callback at time 3 on dbQueued. -/
def dbAfterProc3 : Db := { jobs := [rowAfterProc3], avatars := [] }

/-- The row produced by a processing callback at time 3 on the completed
row: its status has left the terminal state again. -/
def rowCompletedThenProc : AvatarJobRow :=
  { id := "j1", userId := "default-user", status := "processing"
    heightCm := 180, error := none, startedAt := some 3, completedAt := some 2 }

/-- The store produced by that callback on dbCompleted. -/
def dbCompletedThenProc : Db := { jobs := [rowCompletedThenProc], avatars := [] }

/-- The row produced by a second processing callback at time 9 on the
processing row: startedAt has been overwritten. -/
def rowProcessing9 : AvatarJobRow :=
  { id := "j1", userId := "default-user", status := "processing"
    heightCm := 180, error := none, startedAt := some 9, completedAt := none }

/-- The store produced by that callback on dbProcessing5. -/
def dbProcessing9 : Db := { jobs := [rowProcessing9], avatars := [] }

/-- The row produced by the completed-without-result callback at time 7 on
the queued row. -/
def rowCompletedNoAvatar : AvatarJobRow :=
  { id := "j1", userId := "default-user", status := "completed"
    heightCm := 180, error := none, startedAt := none, completedAt := some 7 }

/-- The store after that callback: the job is completed yet no avatar
exists. -/
def dbCompletedNoAvatar : Db := { jobs := [rowCompletedNoAvatar], avatars := [] }

/-- The avatar row created by the completed-with-result callback on dbQueued
with the identity key function. -/
def avatarRowSample : AvatarRow :=
  { userId := "default-user"
    jobId := "j1"
    glbS3Key := "http://s3/tryfitted/avatars/j1/avatar.glb"
    glbUrl := "http://s3/tryfitted/avatars/j1/avatar.glb" }

/-- The row produced by the completed-with-result callback at time 7 on the
queued row. -/
def rowCompleted7 : AvatarJobRow :=
  { id := "j1", userId := "default-user", status := "completed"
    heightCm := 180, error := none, startedAt := none, completedAt := some 7 }

/-- The store after the completed-with-result callback at time 7 on
dbQueued. -/
def dbCompletedWithAvatar : Db :=
  { jobs := [rowCompleted7], avatars := [avatarRowSample] }

/-- The single-event sequence delivering completed with a result at time 7. -/
def eventsCompleteWithResult : List CallbackEvent :=
  [{ body := cbCompletedWithResult, now := 7, createFails := false }]

/-- A concrete URL-validity predicate used by witnesses, standing in for
the runtime URL parser on the handful of sample URLs. -/
def isUrlSample : String → Bool :=
  fun s => s = "http://example.com/front.jpg" || s = "http://example.com/side.jpg"

/-- A valid job-creation body. -/
def validCreateBody : RawCreateJobBody :=
  { frontPhotoUrl := some "http://example.com/front.jpg"
    sidePhotoUrl := none
    heightCm := some 175 }

/-- A job-creation body whose height is below the bound. -/
def shortCreateBody : RawCreateJobBody :=
  { frontPhotoUrl := some "http://example.com/front.jpg"
    sidePhotoUrl := none
    heightCm := some 99 }

/-- An empty API state. -/
def emptyApiState : ApiState := { db := { jobs := [], avatars := [] }, queue := [] }

/-- Environment enabling model sync and leaving the gltfpack toggle unset. -/
def envSyncOn : WorkerEnv :=
  { MODEL_SYNC_ENABLED := some "true", REQUIRE_GLTFPACK := none }

/-- Environment with both toggles unset. -/
def envToggledOff : WorkerEnv :=
  { MODEL_SYNC_ENABLED := none, REQUIRE_GLTFPACK := none }

/-- Environment requiring gltfpack and leaving model sync unset. -/
def envRequireGltfpack : WorkerEnv :=
  { MODEL_SYNC_ENABLED := none, REQUIRE_GLTFPACK := some "true" }

/-- A world where model sync fails with exit status 2 and gltfpack is
nowhere available. -/
def worldSyncFails : WorkerWorld :=
  { modelSyncExit := 2, usrLocalGltfpack := false, toolsGltfpackFile := false
    toolsGltfpackNested := false, installOk := false, gltfpackElsewhere := false }

/-- A world where model sync succeeds and gltfpack is nowhere available. -/
def worldNoGltfpack : WorkerWorld :=
  { modelSyncExit := 0, usrLocalGltfpack := false, toolsGltfpackFile := false
    toolsGltfpackNested := false, installOk := false, gltfpackElsewhere := false }

/-- A presign body with a valid purpose and content type and no fileName. -/
def presignNoNameBody : RawPresignBody :=
  { purpose := some .avatar_photo, contentType := some "image/jpeg"
    fileName := none }

end Tryfitted

namespace Tryfitted

/-! ## Lemmas about the fit engine -/

lemma mem_zoneNames (z : FitZoneName) : z ∈ zoneNames := by
  cases z <;> simp [zoneNames]

lemma statusFromAdjustedEase_eq_tight (x : Rat) :
    statusFromAdjustedEase x = .tight ↔ x < 0 := by
  unfold statusFromAdjustedEase
  split_ifs with h1 h2 <;> simp_all

lemma statusFromAdjustedEase_ne_unknown (x : Rat) :
    statusFromAdjustedEase x ≠ .unknown := by
  unfold statusFromAdjustedEase
  split_ifs <;> simp

lemma computeZone_bodyCm (a : Rat) (req : FitRequest) (z : FitZoneName) :
    (computeZone a req z).bodyCm = zoneField z req.avatarMeasurements := by
  cases h1 : zoneField z req.avatarMeasurements <;>
    cases h2 : zoneField z req.sizeChart <;>
      simp [computeZone, h1, h2]

lemma computeZone_garmentCm (a : Rat) (req : FitRequest) (z : FitZoneName) :
    (computeZone a req z).garmentCm = zoneField z req.sizeChart := by
  cases h1 : zoneField z req.avatarMeasurements <;>
    cases h2 : zoneField z req.sizeChart <;>
      simp [computeZone, h1, h2]

lemma computeZone_status_tight (a : Rat) (req : FitRequest) (z : FitZoneName) :
    (computeZone a req z).status = .tight ↔
      ∃ b g, zoneField z req.avatarMeasurements = some b ∧
        zoneField z req.sizeChart = some g ∧ g - b + a < 0 := by
  cases h1 : zoneField z req.avatarMeasurements <;>
    cases h2 : zoneField z req.sizeChart <;>
      simp [computeZone, h1, h2, statusFromAdjustedEase_eq_tight]

lemma computeZone_status_unknown (a : Rat) (req : FitRequest) (z : FitZoneName) :
    (computeZone a req z).status = .unknown ↔
      (zoneField z req.avatarMeasurements = none ∨
        zoneField z req.sizeChart = none) := by
  cases h1 : zoneField z req.avatarMeasurements <;>
    cases h2 : zoneField z req.sizeChart <;>
      simp [computeZone, h1, h2, statusFromAdjustedEase_ne_unknown]

lemma combineOverall_eq_tight (ss : List FitZoneStatus) :
    combineOverall ss = .tight ↔ .tight ∈ ss := by
  unfold combineOverall
  split_ifs with h1 h2
  · simp [h1]
  · simp_all
  · exact iff_of_false (by simp [ite_eq_iff]) h1

lemma combineOverall_eq_unknown (ss : List FitZoneStatus) :
    combineOverall ss = .unknown ↔ ss = [] := by
  unfold combineOverall
  split_ifs with h1 h2
  · exact iff_of_false (by simp) (by rintro rfl; simp at h1)
  · exact iff_of_true rfl (List.length_eq_zero.mp h2)
  · exact iff_of_false (by simp [ite_eq_iff]) (by rintro rfl; simp at h2)

lemma computeFit_zones (req : FitRequest) :
    (computeFit req).zones =
      fun z =>
        computeZone
          (stretchAllowanceCm (req.materialProfile.bind (fun p => p.stretch)))
          req z :=
  rfl

lemma computeFit_overall (req : FitRequest) :
    (computeFit req).overall =
      combineOverall
        ((zoneNames.map
            (fun z =>
              (computeZone
                (stretchAllowanceCm
                  (req.materialProfile.bind (fun p => p.stretch)))
                req z).status)).filter
          (fun s => s ≠ .unknown)) :=
  rfl

lemma computeFit_confidence (req : FitRequest) :
    (computeFit req).confidence =
      (confidenceFromCoverage
        (fun z =>
          computeZone
            (stretchAllowanceCm (req.materialProfile.bind (fun p => p.stretch)))
            req z)).1 :=
  rfl

lemma computeFit_reasons (req : FitRequest) :
    (computeFit req).reasons =
      (confidenceFromCoverage
        (fun z =>
          computeZone
            (stretchAllowanceCm (req.materialProfile.bind (fun p => p.stretch)))
            req z)).2 :=
  rfl

lemma confidenceFromCoverage_spec (zs : FitZoneName → FitZoneResult) (n : Nat)
    (hn : (zoneNames.filter
        (fun z => (zs z).bodyCm.isSome && (zs z).garmentCm.isSome)).length = n) :
    ((confidenceFromCoverage zs).1 = .high ↔ 4 ≤ n)
      ∧ ((confidenceFromCoverage zs).1 = .medium ↔ (n = 2 ∨ n = 3))
      ∧ ((confidenceFromCoverage zs).1 = .low ↔ n ≤ 1)
      ∧ ((confidenceFromCoverage zs).2 = [] ↔ (confidenceFromCoverage zs).1 = .high) := by
  unfold confidenceFromCoverage
  simp only [hn]
  split_ifs with h1 h2 <;>
    refine ⟨?_, ?_, ?_, ?_⟩ <;> simp_all <;> omega

lemma coverage_transfer (a : Rat) (req : FitRequest) :
    (zoneNames.filter
        (fun z =>
          (computeZone a req z).bodyCm.isSome
            && (computeZone a req z).garmentCm.isSome)).length =
      coverageCount req := by
  unfold coverageCount
  apply congrArg List.length
  apply List.filter_congr
  intro z _
  rw [computeZone_bodyCm, computeZone_garmentCm]

/-! ## Fit-engine claims -/

/-- C8: computeFit marks a zone tight exactly when both measurements are
present and garment minus body plus the stretch allowance (0, 1, 2, 3 cm for
stretch none, low, medium, high) is negative; overall is tight exactly when
some zone is tight (hence whenever at least one is); overall is unknown
exactly when no zone has both measurements present. -/
theorem computeFit_tight_characterization (req : FitRequest) :
    (∀ z, ((computeFit req).zones z).status = .tight ↔
        ∃ b g, zoneField z req.avatarMeasurements = some b ∧
          zoneField z req.sizeChart = some g ∧
          g - b +
            stretchAllowanceCm (req.materialProfile.bind (fun p => p.stretch))
            < 0)
      ∧ ((computeFit req).overall = .tight ↔
          ∃ z, ((computeFit req).zones z).status = .tight)
      ∧ ((computeFit req).overall = .unknown ↔
          ∀ z, zoneField z req.avatarMeasurements = none ∨
            zoneField z req.sizeChart = none)
      ∧ stretchAllowanceCm (some .noStretch) = 0
      ∧ stretchAllowanceCm (some .low) = 1
      ∧ stretchAllowanceCm (some .medium) = 2
      ∧ stretchAllowanceCm (some .high) = 3 := by
  refine ⟨?_, ?_, ?_, rfl, rfl, rfl, rfl⟩
  · intro z
    simp only [computeFit_zones]
    exact computeZone_status_tight _ req z
  · rw [computeFit_overall, combineOverall_eq_tight]
    simp only [computeFit_zones, List.mem_filter, List.mem_map]
    constructor
    · rintro ⟨⟨z, _, hz⟩, _⟩
      exact ⟨z, hz⟩
    · rintro ⟨z, hz⟩
      exact ⟨⟨z, mem_zoneNames z, hz⟩, by simp⟩
  · rw [computeFit_overall, combineOverall_eq_unknown]
    simp only [computeFit_zones, List.filter_eq_nil_iff, List.mem_map]
    constructor
    · intro h z
      have hz := h _ ⟨z, mem_zoneNames z, rfl⟩
      simp only [ne_eq, decide_not, Bool.not_eq_eq_eq_not, Bool.not_true,
        decide_eq_false_iff_not, not_not] at hz
      exact (computeZone_status_unknown _ req z).mp hz
    · rintro h s ⟨z, _, rfl⟩
      simp only [ne_eq, decide_not, Bool.not_eq_eq_eq_not, Bool.not_true,
        decide_eq_false_iff_not, not_not]
      exact (computeZone_status_unknown _ req z).mpr (h z)

/-- C8 witness: on the concrete tight-chest request the chest zone is tight
(96 - 100 + 0 is negative) and so is the overall status. -/
theorem computeFit_tight_characterization_witness :
    ((computeFit fitReqTight).zones .chest).status = .tight ∧
      (computeFit fitReqTight).overall = .tight := by
  have h := computeFit_tight_characterization fitReqTight
  have hz : ((computeFit fitReqTight).zones .chest).status = .tight :=
    (h.1 .chest).mpr
      ⟨100, 96, rfl, rfl, by norm_num [fitReqTight, stretchAllowanceCm]⟩
  exact ⟨hz, h.2.1.mpr ⟨.chest, hz⟩⟩

/-- C9: computeFit returns confidence high exactly when at least four of the
six zones have both measurements present, medium exactly when two or three
do, low otherwise, and the reasons list is empty exactly when confidence is
high. -/
theorem computeFit_confidence_characterization (req : FitRequest) :
    ((computeFit req).confidence = .high ↔ 4 ≤ coverageCount req)
      ∧ ((computeFit req).confidence = .medium ↔
          (coverageCount req = 2 ∨ coverageCount req = 3))
      ∧ ((computeFit req).confidence = .low ↔ coverageCount req ≤ 1)
      ∧ ((computeFit req).reasons = [] ↔ (computeFit req).confidence = .high) := by
  have h :=
    confidenceFromCoverage_spec
      (fun z =>
        computeZone
          (stretchAllowanceCm (req.materialProfile.bind (fun p => p.stretch)))
          req z)
      (coverageCount req) (coverage_transfer _ req)
  rw [computeFit_confidence, computeFit_reasons]
  exact h

/-- C9 witness: the concrete four-zone request has coverage four, hence
confidence high and an empty reasons list. -/
theorem computeFit_confidence_characterization_witness :
    (computeFit fitReqHigh).confidence = .high ∧
      (computeFit fitReqHigh).reasons = [] := by
  have h := computeFit_confidence_characterization fitReqHigh
  have hc : (computeFit fitReqHigh).confidence = .high :=
    h.1.mpr (by decide)
  exact ⟨hc, h.2.2.2.mpr hc⟩

/-! ## Lemmas about the status-callback handler -/

lemma avatarJobUpdate_eq (now : Nat) (id : String) (b : StatusCallbackBody)
    (db : Db) (j : AvatarJobRow)
    (hfind : db.jobs.find? (fun r => r.id = id) = some j) :
    avatarJobUpdate now id b db =
      .ok
        ({ db with
            jobs := db.jobs.map
              (fun r => if r.id = id then updatedJobRow now b j else r) },
          updatedJobRow now b j) := by
  unfold avatarJobUpdate
  rw [hfind]

lemma patchStatus_ok_decomp (ik : String → String) (cf : Bool) (now : Nat)
    (id : String) (b : StatusCallbackBody) (db db' : Db) (j' : AvatarJobRow)
    (hok : patchStatus ik cf now id b db = .ok (db', j')) :
    ∃ db1 : Db, db1.jobs = db.jobs
      ∧ ((db1.avatars = db.avatars
            ∧ ¬(b.status = some "completed" ∧ b.result.isSome = true))
          ∨ ((b.status = some "completed" ∧ b.result.isSome = true)
              ∧ ∃ row, row.jobId = id ∧ db1.avatars = db.avatars ++ [row]))
      ∧ avatarJobUpdate now id b db1 = .ok (db', j') := by
  cases hr : b.result with
  | none =>
      refine ⟨db, rfl, Or.inl ⟨rfl, by simp [hr]⟩, ?_⟩
      simpa [patchStatus, hr] using hok
  | some r =>
      by_cases hs : b.status = some "completed"
      · cases cf with
        | true =>
            simp [patchStatus, hr, hs, avatarCreate, Bind.bind, Except.bind]
              at hok
        | false =>
            refine
              ⟨{ db with avatars := db.avatars ++
                  [{ userId := r.userId, jobId := id
                     glbS3Key := ik r.glbUrl, glbUrl := r.glbUrl }] },
                rfl,
                Or.inr ⟨⟨hs, by simp [hr]⟩, _, rfl, rfl⟩, ?_⟩
            simpa [patchStatus, hr, hs, avatarCreate] using hok
      · refine ⟨db, rfl, Or.inl ⟨rfl, by simp [hs]⟩, ?_⟩
        simpa [patchStatus, hr, hs] using hok

lemma patchStatus_row_spec (ik : String → String) (cf : Bool) (now : Nat)
    (id : String) (b : StatusCallbackBody) (db db' : Db)
    (j j' : AvatarJobRow)
    (hfind : findJob db id = some j)
    (hok : patchStatus ik cf now id b db = .ok (db', j')) :
    j' = updatedJobRow now b j ∧ j' ∈ db'.jobs := by
  obtain ⟨db1, hjobs, _, hupd⟩ :=
    patchStatus_ok_decomp ik cf now id b db db' j' hok
  have hfind1 : db1.jobs.find? (fun r => r.id = id) = some j := by
    rw [hjobs]; exact hfind
  rw [avatarJobUpdate_eq now id b db1 j hfind1] at hupd
  have hdb : db' = { db1 with
      jobs := db1.jobs.map
        (fun r => if r.id = id then updatedJobRow now b j else r) } :=
    congrArg Prod.fst (Except.ok.inj hupd) |>.symm
  have hj : j' = updatedJobRow now b j :=
    congrArg Prod.snd (Except.ok.inj hupd) |>.symm
  refine ⟨hj, ?_⟩
  have hjmem : j ∈ db1.jobs := List.mem_of_find?_eq_some hfind1
  have hjid : j.id = id := by
    have := List.find?_some hfind1
    simpa using this
  have : (if j.id = id then updatedJobRow now b j else j) = j' := by
    rw [hj]; simp [hjid]
  rw [hdb]
  exact this ▸ List.mem_map_of_mem _ hjmem

lemma patchStatus_avatar_step (ik : String → String) (cf : Bool) (now : Nat)
    (id : String) (b : StatusCallbackBody) (db db' : Db) (j' : AvatarJobRow)
    (hok : patchStatus ik cf now id b db = .ok (db', j')) :
    ((∃ a ∈ db'.avatars, a.jobId = id) ↔
      ((∃ a ∈ db.avatars, a.jobId = id)
        ∨ (b.status = some "completed" ∧ b.result.isSome = true))) := by
  obtain ⟨db1, hjobs, havatars, hupd⟩ :=
    patchStatus_ok_decomp ik cf now id b db db' j' hok
  have hpres : db'.avatars = db1.avatars := by
    unfold avatarJobUpdate at hupd
    cases hfind : db1.jobs.find? (fun r => r.id = id) with
    | none => rw [hfind] at hupd; cases hupd
    | some j =>
        rw [hfind] at hupd
        have := congrArg Prod.fst (Except.ok.inj hupd)
        simp at this
        rw [← this]
  rcases havatars with ⟨heq, hnc⟩ | ⟨hc, row, hrow, heq⟩
  · rw [hpres, heq]
    constructor
    · exact Or.inl
    · rintro (h | hc)
      · exact h
      · exact absurd hc hnc
  · rw [hpres, heq]
    refine iff_of_true ⟨row, by simp, hrow⟩ (Or.inr hc)

lemma runCallbacks_avatar_characterization (ik : String → String)
    (id : String) (es : List CallbackEvent) :
    ∀ db0 db1 : Db, runCallbacks ik id es db0 = some db1 →
      ((∃ a ∈ db1.avatars, a.jobId = id) ↔
        ((∃ a ∈ db0.avatars, a.jobId = id)
          ∨ ∃ e ∈ es, e.body.status = some "completed"
              ∧ e.body.result.isSome = true)) := by
  induction es with
  | nil =>
      intro db0 db1 h
      simp only [runCallbacks] at h
      cases h
      simp
  | cons e es ih =>
      intro db0 db1 h
      simp only [runCallbacks] at h
      cases hstep : patchStatus ik e.createFails e.now id e.body db0 with
      | error u => rw [hstep] at h; cases h
      | ok p =>
          rw [hstep] at h
          have h1 := ih p.1 db1 h
          have h2 :=
            patchStatus_avatar_step ik e.createFails e.now id e.body db0
              p.1 p.2 (by rw [hstep])
          rw [h1, h2]
          simp only [List.mem_cons]
          constructor
          · rintro ((ha | hc) | ⟨e', he', hc'⟩)
            · exact Or.inl ha
            · exact Or.inr ⟨e, Or.inl rfl, hc⟩
            · exact Or.inr ⟨e', Or.inr he', hc'⟩
          · rintro (ha | ⟨e', (rfl | he'), hc'⟩)
            · exact Or.inl (Or.inl ha)
            · exact Or.inl (Or.inr hc')
            · exact Or.inr ⟨e', he', hc'⟩

/-! ## Status-callback claims -/

/-- C1 counterexample: the job in dbCompleted has terminal status completed,
yet a later processing callback changes its stored status to processing:
the handler enforces no monotone transition order. -/
theorem statusCallback_terminal_not_final :
    rowCompleted.status = "completed"
      ∧ patchStatus (fun s => s) false 3 "j1" cbProcessing dbCompleted =
          .ok (dbCompletedThenProc, rowCompletedThenProc)
      ∧ (findJob dbCompletedThenProc "j1").map (fun r => r.status) =
          some "processing" :=
  ⟨rfl, rfl, rfl⟩

/-- C1 amended: the status-callback handler performs no transition check:
whenever the update succeeds, the stored status is exactly the status the
callback carries (the previous status when the callback carries none),
whatever the previous status was — terminal statuses included. -/
theorem statusCallback_overwrites_status (ik : String → String) (cf : Bool)
    (now : Nat) (id : String) (b : StatusCallbackBody) (db db' : Db)
    (j j' : AvatarJobRow)
    (hfind : findJob db id = some j)
    (hok : patchStatus ik cf now id b db = .ok (db', j')) :
    j'.status = b.status.getD j.status ∧ j' ∈ db'.jobs := by
  obtain ⟨hj, hmem⟩ := patchStatus_row_spec ik cf now id b db db' j j' hfind hok
  exact ⟨by rw [hj]; rfl, hmem⟩

/-- C1 amended witness: the processing callback at time 3 on the queued row
stores status processing. -/
theorem statusCallback_overwrites_status_witness :
    rowAfterProc3.status = "processing" ∧ rowAfterProc3 ∈ dbAfterProc3.jobs := by
  have h :=
    statusCallback_overwrites_status (fun s => s) false 3 "j1" cbProcessing
      dbQueued dbAfterProc3 rowQueued rowAfterProc3 rfl rfl
  simpa [cbProcessing, rowQueued] using h

/-- C2 counterexample: a callback carrying status completed but no result
payload marks the job completed while creating no Avatar record, so after
it the job status is completed and no avatar exists. -/
theorem completedWithoutResult_creates_no_avatar :
    runCallbacks (fun s => s) "j1"
        [{ body := cbCompletedNoResult, now := 7, createFails := false }]
        dbQueued = some dbCompletedNoAvatar
      ∧ (findJob dbCompletedNoAvatar "j1").map (fun r => r.status) =
          some "completed"
      ∧ dbCompletedNoAvatar.avatars = [] :=
  ⟨rfl, rfl, rfl⟩

/-- C2 amended: after any sequence of successful status callbacks on a job
that starts with no avatar, an Avatar record owned by the job exists exactly
when some callback in the sequence carried status completed together with a
result payload — independently of the job status the sequence ends in. -/
theorem avatarExists_iff_completedResultCallback (ik : String → String)
    (id : String) (es : List CallbackEvent) (db0 db1 : Db)
    (h0 : ∀ a ∈ db0.avatars, a.jobId ≠ id)
    (hrun : runCallbacks ik id es db0 = some db1) :
    (∃ a ∈ db1.avatars, a.jobId = id) ↔
      ∃ e ∈ es, e.body.status = some "completed"
        ∧ e.body.result.isSome = true := by
  rw [runCallbacks_avatar_characterization ik id es db0 db1 hrun]
  have : ¬∃ a ∈ db0.avatars, a.jobId = id := by
    rintro ⟨a, ha, hid⟩
    exact h0 a ha hid
  rw [or_iff_right this]

/-- C2 amended witness: the completed-with-result callback at time 7 on the
queued store leaves an avatar owned by the job. -/
theorem avatarExists_iff_completedResultCallback_witness :
    ∃ a ∈ dbCompletedWithAvatar.avatars, a.jobId = "j1" := by
  have h :=
    avatarExists_iff_completedResultCallback (fun s => s) "j1"
      eventsCompleteWithResult dbQueued dbCompletedWithAvatar
      (by simp [dbQueued]) rfl
  exact h.mpr
    ⟨{ body := cbCompletedWithResult, now := 7, createFails := false },
      by simp [eventsCompleteWithResult], rfl, rfl⟩

/-- C3: in the status-callback handler the avatar create call runs before
the job update; when the callback carries status completed with a result
payload and the avatar create throws, the handler aborts with the error and
the job store is never written, so the job record stays entirely unchanged
and in particular is not marked completed. -/
theorem avatarCreateFailure_leaves_job_unchanged (ik : String → String)
    (now : Nat) (id : String) (b : StatusCallbackBody) (db : Db)
    (r : CallbackResult)
    (hs : b.status = some "completed") (hr : b.result = some r) :
    patchStatus ik true now id b db = .error () := by
  simp [patchStatus, hr, hs, avatarCreate, Bind.bind, Except.bind]

/-- C3 witness: the completed-with-result callback with a throwing avatar
create aborts on the queued store. -/
theorem avatarCreateFailure_leaves_job_unchanged_witness :
    patchStatus (fun s => s) true 7 "j1" cbCompletedWithResult dbQueued =
      .error () :=
  avatarCreateFailure_leaves_job_unchanged (fun s => s) 7 "j1"
    cbCompletedWithResult dbQueued sampleResult rfl rfl

/-- C4 counterexample: the job in dbProcessing5 already carries
startedAt 5 from an earlier processing callback; a repeated processing
callback at time 9 overwrites startedAt to 9. -/
theorem repeatedProcessing_overwrites_startedAt :
    rowProcessing5.startedAt = some 5
      ∧ patchStatus (fun s => s) false 9 "j1" cbProcessing dbProcessing5 =
          .ok (dbProcessing9, rowProcessing9)
      ∧ rowProcessing9.startedAt = some 9 :=
  ⟨rfl, rfl, rfl⟩

/-- C4 amended: every successful callback whose body carries status
processing writes startedAt to the current time (whether or not the job was
already processing), every successful callback carrying completed or failed
writes completedAt to the current time, and callbacks with any other status
leave both fields unchanged. -/
theorem statusCallback_timestamp_rules (ik : String → String) (cf : Bool)
    (now : Nat) (id : String) (b : StatusCallbackBody) (db db' : Db)
    (j j' : AvatarJobRow)
    (hfind : findJob db id = some j)
    (hok : patchStatus ik cf now id b db = .ok (db', j')) :
    j'.startedAt =
        (if b.status = some "processing" then some now else j.startedAt)
      ∧ j'.completedAt =
        (if b.status = some "completed" ∨ b.status = some "failed" then
          some now
        else j.completedAt) := by
  obtain ⟨hj, _⟩ := patchStatus_row_spec ik cf now id b db db' j j' hfind hok
  rw [hj]
  exact ⟨rfl, rfl⟩

/-- C4 amended witness: the processing callback at time 3 on the queued row
sets startedAt 3 and leaves completedAt unset. -/
theorem statusCallback_timestamp_rules_witness :
    rowAfterProc3.startedAt = some 3 ∧ rowAfterProc3.completedAt = none := by
  have h :=
    statusCallback_timestamp_rules (fun s => s) false 3 "j1" cbProcessing
      dbQueued dbAfterProc3 rowQueued rowAfterProc3 rfl rfl
  simpa [cbProcessing, rowQueued] using h

/-! ## Job-creation claim -/

lemma parseCreateAvatarJob_none (isUrl : String → Bool) (b : RawCreateJobBody)
    (hbad : b.heightCm = none
      ∨ (∃ h, b.heightCm = some h ∧ (h < 100 ∨ 250 < h))
      ∨ b.frontPhotoUrl = none
      ∨ (∃ f, b.frontPhotoUrl = some f ∧ isUrl f = false)) :
    parseCreateAvatarJob isUrl b = none := by
  rcases hbad with hh | ⟨h, hh, hout⟩ | hf | ⟨f, hf, hurl⟩
  · cases hfp : b.frontPhotoUrl <;> simp [parseCreateAvatarJob, hfp, hh]
  · cases hfp : b.frontPhotoUrl with
    | none => simp [parseCreateAvatarJob, hfp]
    | some f =>
        simp only [parseCreateAvatarJob, hfp, hh]
        split_ifs with hc
        · exfalso
          simp only [Bool.and_eq_true, decide_eq_true_eq] at hc
          rcases hout with h1 | h1 <;> linarith [hc.1.2, hc.2]
        · rfl
  · cases hh : b.heightCm <;> simp [parseCreateAvatarJob, hf, hh]
  · cases hh : b.heightCm with
    | none => simp [parseCreateAvatarJob, hf, hh]
    | some h => simp [parseCreateAvatarJob, hf, hh, hurl]

/-- C5: the job-creation route replies 400 and leaves the store and queue
untouched whenever the body misses heightCm or carries one outside 100..250,
or misses frontPhotoUrl or carries one the URL check rejects; and for every
body accepted by the schema it appends exactly one queued job row and exactly
one avatar_build message carrying the job id, the photo URLs and the
height. -/
theorem postAvatarJobs_validation (isUrl : String → Bool) (freshId : String)
    (b : RawCreateJobBody) (st : ApiState) :
    ((b.heightCm = none
        ∨ (∃ h, b.heightCm = some h ∧ (h < 100 ∨ 250 < h))
        ∨ b.frontPhotoUrl = none
        ∨ (∃ f, b.frontPhotoUrl = some f ∧ isUrl f = false)) →
      postAvatarJobs isUrl freshId b st = (.badRequest, st))
    ∧ (∀ request, parseCreateAvatarJob isUrl b = some request →
        postAvatarJobs isUrl freshId b st =
          (.created freshId "queued",
            { st with
                db := { st.db with jobs := st.db.jobs ++
                  [{ id := freshId, userId := "default-user"
                     status := "queued", heightCm := request.heightCm
                     error := none, startedAt := none, completedAt := none }] }
                queue := st.queue ++
                  [{ name := "avatar_build", jobId := freshId
                     frontPhotoUrl := request.frontPhotoUrl
                     sidePhotoUrl := request.sidePhotoUrl
                     heightCm := request.heightCm }] })) := by
  constructor
  · intro hbad
    simp [postAvatarJobs, parseCreateAvatarJob_none isUrl b hbad]
  · intro request hparse
    simp [postAvatarJobs, hparse]

/-- C5 witness: a height of 99 is rejected without touching the state, and
the valid 175 body creates one queued job and one avatar_build message. -/
theorem postAvatarJobs_validation_witness :
    postAvatarJobs isUrlSample "job-1" shortCreateBody emptyApiState =
        (.badRequest, emptyApiState)
      ∧ postAvatarJobs isUrlSample "job-1" validCreateBody emptyApiState =
          (.created "job-1" "queued",
            { emptyApiState with
                db := { emptyApiState.db with jobs := emptyApiState.db.jobs ++
                  [{ id := "job-1", userId := "default-user"
                     status := "queued", heightCm := 175
                     error := none, startedAt := none, completedAt := none }] }
                queue := emptyApiState.queue ++
                  [{ name := "avatar_build", jobId := "job-1"
                     frontPhotoUrl := "http://example.com/front.jpg"
                     sidePhotoUrl := none, heightCm := 175 }] }) := by
  constructor
  · exact
      (postAvatarJobs_validation isUrlSample "job-1" shortCreateBody
          emptyApiState).1
        (Or.inr (Or.inl ⟨99, rfl, Or.inl (by norm_num)⟩))
  · exact
      (postAvatarJobs_validation isUrlSample "job-1" validCreateBody
          emptyApiState).2
        { frontPhotoUrl := "http://example.com/front.jpg"
          sidePhotoUrl := none, heightCm := 175 } rfl

/-! ## Worker entrypoint claims -/

/-- C6: when MODEL_SYNC_ENABLED is truthy and model sync exits nonzero, the
entrypoint exits with that nonzero status and never reaches the worker; when
the toggle is unset or falsy, the model-sync exit status has no effect on
the outcome, which is just the remainder of the script. -/
theorem entrypoint_modelSync_policy (env : WorkerEnv) (w : WorkerWorld) :
    (is_true (env.MODEL_SYNC_ENABLED.getD "false") = true →
        w.modelSyncExit ≠ 0 →
        entrypoint env w = .exited w.modelSyncExit)
      ∧ (is_true (env.MODEL_SYNC_ENABLED.getD "false") = false →
          ∀ n, entrypoint env { w with modelSyncExit := n } =
            entrypointAfterSync env w) := by
  constructor
  · intro hon hfail
    simp [entrypoint, hon, hfail]
  · intro hoff n
    simp [entrypoint, hoff, entrypointAfterSync, gltfpackAvailable]

/-- C6 witness: with the toggle on and model sync exiting 2 the entrypoint
exits 2; with the toggle unset the same failing world still reaches the
remainder of the script and the worker. -/
theorem entrypoint_modelSync_policy_witness :
    entrypoint envSyncOn worldSyncFails = .exited 2
      ∧ entrypoint envToggledOff { worldSyncFails with modelSyncExit := 2 } =
          entrypointAfterSync envToggledOff worldSyncFails
      ∧ entrypointAfterSync envToggledOff worldSyncFails = .startedWorker := by
  refine ⟨?_, ?_, rfl⟩
  · exact (entrypoint_modelSync_policy envSyncOn worldSyncFails).1 rfl
      (by decide)
  · exact (entrypoint_modelSync_policy envToggledOff worldSyncFails).2 rfl 2

/-- C7: when REQUIRE_GLTFPACK is truthy, gltfpack is unavailable after the
install-from-volume step, and the model-sync step has not already aborted
the script, the entrypoint exits with status 1 and never reaches the worker;
when the toggle is unset or falsy and the model-sync step passes, the
entrypoint starts the worker whatever the gltfpack availability. -/
theorem entrypoint_requireGltfpack_policy (env : WorkerEnv) (w : WorkerWorld) :
    (is_true (env.REQUIRE_GLTFPACK.getD "false") = true →
        gltfpackAvailable w = false →
        (is_true (env.MODEL_SYNC_ENABLED.getD "false") = false
          ∨ w.modelSyncExit = 0) →
        entrypoint env w = .exited 1)
      ∧ (is_true (env.REQUIRE_GLTFPACK.getD "false") = false →
          (is_true (env.MODEL_SYNC_ENABLED.getD "false") = false
            ∨ w.modelSyncExit = 0) →
          entrypoint env w = .startedWorker) := by
  have hpass : (is_true (env.MODEL_SYNC_ENABLED.getD "false") = false
      ∨ w.modelSyncExit = 0) →
      entrypoint env w = entrypointAfterSync env w := by
    intro hsync
    unfold entrypoint
    split_ifs with h1 h2
    · rcases hsync with hoff | hzero
      · rw [hoff] at h1; exact absurd h1 (by simp)
      · exact absurd hzero h2
    · rfl
    · rfl
  constructor
  · intro hreq hgone hsync
    rw [hpass hsync]
    simp [entrypointAfterSync, hreq, hgone]
  · intro hreq hsync
    rw [hpass hsync]
    simp [entrypointAfterSync, hreq]

/-- C7 witness: with REQUIRE_GLTFPACK true and no gltfpack anywhere the
entrypoint exits 1; with the toggle unset the same world starts the
worker. -/
theorem entrypoint_requireGltfpack_policy_witness :
    entrypoint envRequireGltfpack worldNoGltfpack = .exited 1
      ∧ entrypoint envToggledOff worldNoGltfpack = .startedWorker := by
  constructor
  · exact
      (entrypoint_requireGltfpack_policy envRequireGltfpack worldNoGltfpack).1
        rfl rfl (Or.inl rfl)
  · exact
      (entrypoint_requireGltfpack_policy envToggledOff worldNoGltfpack).2
        rfl (Or.inl rfl)

/-! ## Presign claim -/

/-- C10: every accepted presign request is answered with the key built as
uploads/ then the UUID, a hyphen and the fileName field; the schema accepts
bodies without fileName (given a valid purpose and a nonempty contentType),
and for them the interpolated key ends in the literal text -undefined. -/
theorem postPresign_key_shape (uuid : String) (b : RawPresignBody)
    (request : PresignUploadRequest)
    (hacc : parsePresign b = some request) :
    postPresign uuid b = some ("PUT", presignKey uuid request.fileName)
      ∧ request.fileName = b.fileName
      ∧ (b.fileName = none →
          presignKey uuid request.fileName = ("uploads/" ++ uuid) ++ "-undefined")
      ∧ (∀ p ct, 1 ≤ ct.length →
          parsePresign
              { purpose := some p, contentType := some ct, fileName := none } =
            some { purpose := p, contentType := ct, fileName := none }) := by
  have hfile : request.fileName = b.fileName := by
    cases hp : b.purpose with
    | none => simp [parsePresign, hp] at hacc
    | some p =>
        cases hct : b.contentType with
        | none => simp [parsePresign, hp, hct] at hacc
        | some ct =>
            simp only [parsePresign, hp, hct] at hacc
            split_ifs at hacc with hc
            rw [← Option.some.inj hacc]
  refine ⟨?_, hfile, ?_, ?_⟩
  · simp [postPresign, hacc]
  · intro hnone
    rw [hfile, hnone]
    show ("uploads/" ++ uuid ++ "-") ++ "undefined" = ("uploads/" ++ uuid) ++ "-undefined"
    rw [String.append_assoc ("uploads/" ++ uuid) "-" "undefined"]
    rfl
  · intro p ct hct
    simp [parsePresign, hct]

/-- C10 witness: a body with purpose avatar_photo, contentType image/jpeg
and no fileName is accepted and yields the key uploads/u123-undefined. -/
theorem postPresign_key_shape_witness :
    postPresign "u123" presignNoNameBody = some ("PUT", "uploads/u123-undefined") := by
  have h :=
    postPresign_key_shape "u123" presignNoNameBody
      { purpose := .avatar_photo, contentType := "image/jpeg", fileName := none }
      rfl
  exact h.1

end Tryfitted
